import Mathlib

/-!
Verification of the CircleCI runner scripts (circlerunner.py, macrunner.py).

The Python code is embedded shallowly:

* The ambient process environment (`os.environ`) is an association list
  `OsEnv`; `envGet`/`envSet` model dictionary read and overwrite.
* Every effectful Python function becomes a value of `RunM α`: a function
  from the ambient environment to the new environment, a trace of observable
  events (log lines, process spawns, S3 upload calls) and an
  `Except PyError α` result, where `PyError` has one constructor per
  distinct raise site (or runtime error) of the source.
* The external world is an oracle record `SysCtx`: the filesystem maps a
  path to `some` stat data exactly when the path names an existing regular
  file (`os.path.isfile`); `subprocess.run`, `glob.glob`, `boto3` upload and
  the parsed configparser content of a file are likewise oracle functions.
* Machine-level details kept faithful: `oct(st_mode)` is rendered as the
  Python octal string ("0o" and the digits) before the `endswith` check;
  `str.upper` is modelled by ASCII upper-casing; `os.path.join` and
  `os.path.basename` follow posixpath for two arguments; an exception
  raised by a `finally:` block replaces the in-flight exception, as in
  Python.
-/

/-- The ambient process environment, as an association list (a Python dict
observed through lookup and overwrite). -/
abbrev OsEnv := List (String × String)

/-- Association-list lookup (first binding wins, like a dict read). -/
def alookup {β : Type} : List (String × β) → String → Option β
  | [], _ => none
  | (k, v) :: rest, key => if k = key then some v else alookup rest key

/-- Environment read, `os.environ.get(key)`. -/
def envGet (e : OsEnv) (key : String) : Option String := alookup e key

/-- Environment write, `os.environ[key] = val`: overwrite the binding in
place when the key is present, append it otherwise (dict update). -/
def envSet : OsEnv → String → String → OsEnv
  | [], key, val => [(key, val)]
  | (k, v) :: rest, key, val =>
      if k = key then (key, val) :: rest else (k, v) :: envSet rest key val

/-- Stat data of an existing regular file: owner principal name
(`pwd.getpwuid(os.stat(p).st_uid).pw_name`) and the full `st_mode`. -/
structure FileStat where
  owner : String
  mode : Nat
deriving DecidableEq, Repr

/-- The filesystem oracle: `some` stat data exactly when the path names an
existing regular file, `none` otherwise (`os.path.isfile` is false). -/
abbrev FileSys := String → Option FileStat

/-- Python `oct(n)` for a nonnegative argument: "0o" and the octal digits. -/
def pyOct (n : Nat) : String := "0o" ++ String.mk (Nat.toDigits 8 n)

/-- How a Python f-string renders an optional string: `None` or the text. -/
def pyStrOpt : Option String → String
  | none => "None"
  | some s => s

/-- Python `str.endswith`, as a structurally computable suffix test over
the character list (Lean `String.endsWith` is byte-position based and does
not reduce in the kernel). -/
def strEndsWith (s suffix : String) : Bool := suffix.data.isSuffixOf s.data

/-- Python `str.startswith`, over the character list. -/
def strStartsWith (s head : String) : Bool := List.isPrefixOf head.data s.data

/-- Python `str.upper` for the ASCII texts the runner handles, over the
character list. -/
def asciiUpper (s : String) : String := String.mk (s.data.map Char.toUpper)

/-- `os.path.join(a, b)` for two components (posixpath). -/
def osJoin (a b : String) : String :=
  if strStartsWith b "/" then b
  else if a = "" || strEndsWith a "/" then a ++ b
  else a ++ "/" ++ b

/-- `os.path.basename(p)` (posixpath): the part after the last slash. -/
def osBasename (p : String) : String :=
  String.mk ((p.data.reverse.takeWhile (fun c => c ≠ '/')).reverse)

/-- Log severities used by the runner. -/
inductive LogLv where
  | debug
  | error
deriving DecidableEq, Repr

/-- Observable events of a run: an emitted log line, a child process
spawn (`subprocess.run` with the command vector, the child environment and
the working directory), or an S3 upload call. -/
inductive SysEvent where
  | logLine (lvl : LogLv) (msg : String)
  | spawn (cmd : List String) (env : OsEnv) (cwd : Option String)
  | s3Upload (filename : String) (bucket : String) (key : String)
deriving DecidableEq, Repr

/-- An exception raised by `subprocess.run`. `stdoutAttr`/`stderrAttr` are
`some` when the exception object has the attribute (`CalledProcessError`
carries captured output; `OSError` such as `FileNotFoundError` does not, so
reading `e.stdout` on it raises `AttributeError`). -/
structure PyExc where
  name : String
  stdoutAttr : Option String
  stderrAttr : Option String
deriving DecidableEq, Repr

/-- One constructor per distinct raise site or runtime error of the source:
the aggregated security raise of `security_validation`, an exception
propagated out of `subprocess.run`, the `AttributeError` from reading a
missing `e.stdout`/`e.stderr` attribute, the explicit nonzero-returncode
raise, configparser `KeyError` on a missing section, `TypeError` from
joining `None`, the invalid-upload raise, a boto3 upload failure, and the
two job-name raises of `do_the_job`. -/
inductive PyError where
  | validationFailed (path : String)
  | spawnExc (exc : PyExc)
  | attributeError (attr : String)
  | commandFailed (cmd : List String) (returncode : Int)
  | osError (path : String)
  | keyError (title : String)
  | typeError
  | uploadInvalidFile (path : String)
  | botoError (msg : String)
  | undefinedJobName
  | unknownJob (name : String)
deriving DecidableEq, Repr

/-- Outcome of a `subprocess.run` call: the call raises, or completes with
a return code and captured stdout/stderr text. -/
inductive SpawnOutcome where
  | raisesExc (exc : PyExc)
  | completed (returncode : Int) (stdout : String) (stderr : String)
deriving DecidableEq, Repr

/-- The `subprocess.run` oracle: command vector, child environment and
working directory determine the outcome. -/
abbrev Spawner := List String → OsEnv → Option String → SpawnOutcome

/-- Parsed configparser content of an INI file with `optionxform = str`
(keys case preserved): the DEFAULT section and the named sections. -/
structure ConfigFile where
  defaults : List (String × String)
  sections : List (String × List (String × String))
deriving DecidableEq, Repr

/-- The named section's own entries, when the section exists. -/
def ownSection (c : ConfigFile) (t : String) : Option (List (String × String)) :=
  alookup c.sections t

/-- Whether `config[t]` succeeds: DEFAULT always exists, a named section
must be present (else configparser raises `KeyError`). -/
def hasSection (c : ConfigFile) (t : String) : Bool :=
  if t = "DEFAULT" then true else (ownSection c t).isSome

/-- Iteration order of `config[t]` (configparser section proxy): the
section's own keys, then the DEFAULT keys not shadowed by them; for
DEFAULT itself, just its keys. -/
def sectionKeys (c : ConfigFile) (t : String) : List String :=
  if t = "DEFAULT" then c.defaults.map Prod.fst
  else
    match ownSection c t with
    | none => []
    | some own =>
        own.map Prod.fst ++
          (c.defaults.map Prod.fst).filter (fun k => (alookup own k).isNone)

/-- `config[t][k]` (configparser): the section's own value shadows the
DEFAULT value. Total function; the default branch is unreachable for keys
of `sectionKeys`. -/
def sectionValue (c : ConfigFile) (t k : String) : String :=
  if t = "DEFAULT" then (alookup c.defaults k).getD ""
  else
    match ownSection c t with
    | none => ""
    | some own =>
        match alookup own k with
        | some v => v
        | none => (alookup c.defaults k).getD ""

/-- `if not title: title = 'DEFAULT'` of `load_config`. -/
def resolveTitle : Option String → String
  | none => "DEFAULT"
  | some t => if t = "" then "DEFAULT" else t

/-- The external-world oracles: filesystem stat, `subprocess.run`,
`glob.glob`, the boto3 S3 upload (`none` = success, `some msg` = the call
raised), and the parsed content configparser reads from a path. -/
structure SysCtx where
  fs : FileSys
  sp : Spawner
  globFn : String → List String
  s3 : String → String → String → Option String
  readCfg : String → ConfigFile

/-- The effect monad of the embedding: ambient environment in, new
environment, event trace and Python result out. -/
abbrev RunM (α : Type) := OsEnv → OsEnv × List SysEvent × Except PyError α

instance : Monad RunM where
  pure a := fun env => (env, [], Except.ok a)
  bind x f := fun env =>
    match x env with
    | (e1, ev1, Except.ok a) =>
        match f a e1 with
        | (e2, ev2, r) => (e2, ev1 ++ ev2, r)
    | (e1, ev1, Except.error err) => (e1, ev1, Except.error err)

/-- Emit a DEBUG log line. -/
def logDebug (msg : String) : RunM Unit :=
  fun env => (env, [SysEvent.logLine LogLv.debug msg], Except.ok ())

/-- Emit an ERROR log line. -/
def logErr (msg : String) : RunM Unit :=
  fun env => (env, [SysEvent.logLine LogLv.error msg], Except.ok ())

/-- Raise a Python exception. -/
def raiseErr {α : Type} (err : PyError) : RunM α :=
  fun env => (env, [], Except.error err)

/-- `os.environ.copy()`: read the ambient environment. -/
def readEnvM : RunM OsEnv := fun env => (env, [], Except.ok env)

/-- `os.getenv(key)`. -/
def getenvM (key : String) : RunM (Option String) :=
  fun env => (env, [], Except.ok (envGet env key))

/-- `os.environ[key] = val`. -/
def setenvM (key val : String) : RunM Unit :=
  fun env => (envSet env key val, [], Except.ok ())

/-- Record an observable event. -/
def emitEv (ev : SysEvent) : RunM Unit :=
  fun env => (env, [ev], Except.ok ())

/-- A Python `for` loop over a list of monadic actions; an exception
aborts the remaining iterations. -/
def mFor {α : Type} : List α → (α → RunM Unit) → RunM Unit
  | [], _ => pure ()
  | x :: xs, f => do
      f x
      mFor xs f

/-- `CircleRunner._check_file_owner`: stat the file, log its owner at
DEBUG, and when the owner differs from the expected one log the error and
return false. -/
def check_file_owner (fs : FileSys) (file_path owner : String) : RunM Bool :=
  match fs file_path with
  | none => raiseErr (PyError.osError file_path)
  | some st => do
      logDebug ("file " ++ file_path ++ " with owner " ++ st.owner)
      if st.owner ≠ owner then do
        logErr ("script file is not owned by root: " ++ st.owner)
        pure false
      else
        pure true

/-- `CircleRunner._check_file_permission`: stat the file, render `st_mode`
with `oct`, log it at DEBUG, and check that the octal string ends with the
expected suffix. -/
def check_file_permission (fs : FileSys) (file_path expected_permission : String) :
    RunM Bool :=
  match fs file_path with
  | none => raiseErr (PyError.osError file_path)
  | some st => do
      let file_perm := pyOct st.mode
      logDebug ("file " ++ file_path ++ " with perm " ++ file_perm)
      if ¬ strEndsWith file_perm expected_permission then do
        logErr ("file permission error: expected to end with " ++
          expected_permission ++ ": " ++ file_perm)
        pure false
      else
        pure true

/-- `CircleRunner.security_validation`: falsy or non-regular-file paths
fail as missing; otherwise the owner check runs and, only when it passes
(Python `and` short-circuits), the permission check; any failure raises
the single aggregated exception naming the path. -/
def security_validation (fs : FileSys) (file_path : Option String) : RunM Unit := do
  logDebug ("validating script file " ++ pyStrOpt file_path)
  let p := file_path.getD ""
  let valid ←
    if p = "" ∨ fs p = none then do
      logErr ("script file doesn't exist " ++ pyStrOpt file_path)
      pure false
    else do
      let ownerOk ← check_file_owner fs p "root"
      if ownerOk then check_file_permission fs p "00" else pure false
  if valid then pure () else raiseErr (PyError.validationFailed (pyStrOpt file_path))

/-- `CircleRunner.load_config`: validate the config file, parse it with
case preserved, resolve the title (DEFAULT when falsy) and write every key
of the resolved section into the ambient environment. -/
def load_config (S : SysCtx) (config_file : String) (title : Option String) :
    RunM Unit := do
  security_validation S.fs (some config_file)
  let config := S.readCfg config_file
  let t := resolveTitle title
  if hasSection config t then
    mFor (sectionKeys config t) (fun key => setenvM key (sectionValue config t key))
  else
    raiseErr (PyError.keyError t)

/-- `cmd = [script_file]`, extended with `args` when it is a list. -/
def cmdOf (script_file : String) (args : Option (List String)) : List String :=
  match args with
  | some l => script_file :: l
  | none => [script_file]

/-- The child environment of `run_shell_script`: a copy of the ambient
environment overlaid with the overrides, each override key upper-cased. -/
def buildChildEnv (ambient : OsEnv) (env : Option OsEnv) : OsEnv :=
  match env with
  | none => ambient
  | some l => l.foldl (fun acc kv => envSet acc (asciiUpper kv.fst) kv.snd) ambient

/-- Simplified rendering of a Python dict for the DEBUG overlay line (no
claim depends on this text). -/
def reprEnv : OsEnv → String
  | [] => ""
  | (k, v) :: rest => k ++ "=" ++ v ++ ";" ++ reprEnv rest

/-- Rendering of the optional override dict (`None` when absent). -/
def reprEnvOpt : Option OsEnv → String
  | none => "None"
  | some l => reprEnv l

/-- `CircleRunner.run_shell_script`: validate the script, build the command
vector and the overlaid child environment, spawn. When `subprocess.run`
raises, the source logs `e.stdout` and `e.stderr` at DEBUG before
re-raising; on an exception without those attributes that read itself
raises `AttributeError`. When it completes, stdout is logged at DEBUG,
nonempty stderr is logged at ERROR without failing, and a nonzero return
code raises the explicit command-failed exception. -/
def run_shell_script (S : SysCtx) (script_file : String) (args : Option (List String))
    (env : Option OsEnv) (cwd : Option String) : RunM Unit := do
  security_validation S.fs (some script_file)
  let cmd := cmdOf script_file args
  let ambient ← readEnvM
  logDebug ("additional running env: " ++ reprEnvOpt env)
  let running_env := buildChildEnv ambient env
  emitEv (SysEvent.spawn cmd running_env cwd)
  match S.sp cmd running_env cwd with
  | SpawnOutcome.raisesExc exc => do
      match exc.stdoutAttr with
      | some o1 => logDebug o1
      | none => raiseErr (PyError.attributeError "stdout")
      match exc.stderrAttr with
      | some o2 => logDebug o2
      | none => raiseErr (PyError.attributeError "stderr")
      raiseErr (PyError.spawnExc exc)
  | SpawnOutcome.completed returncode out errOut => do
      logDebug out
      if errOut ≠ "" then
        logErr ("error executing " ++ script_file ++ ": " ++ errOut)
      if returncode ≠ 0 then
        raiseErr (PyError.commandFailed cmd returncode)

/-- Fixed paths of `MacCircleRunner.__init__`: the directory holding the
runner source, the runner file itself (`os.path.abspath(__file__)`) and the
working directory (`os.getcwd()`). -/
structure MacCtx where
  src_dir : String
  own_file : String
  cwd : String
deriving DecidableEq, Repr

/-- `self.secret_file_path`. -/
def secret_file_path : String := "/var/root/vault/mac-code-signing.ini"

/-- `self.keychain_script`. -/
def keychain_script (c : MacCtx) : String :=
  osJoin c.src_dir "scripts/mac/setup-keychain.sh"

/-- `self.codesign_script`. -/
def codesign_script (c : MacCtx) : String :=
  osJoin c.src_dir "scripts/mac/code-sign.sh"

/-- `self.teardown_script`. -/
def teardown_script (c : MacCtx) : String :=
  osJoin c.src_dir "scripts/mac/teardown.sh"

/-- The fixed S3 bucket of `upload_file_to_s3`. -/
def bucket_name : String := "slack-cli-binary-artifacts-prod"

/-- `MacCircleRunner.teardown`: run the teardown script when the path is
truthy (the base-class teardown is a no-op). -/
def teardown (S : SysCtx) (c : MacCtx) : RunM Unit := do
  if teardown_script c ≠ "" then
    run_shell_script S (teardown_script c) none none none

/-- `MacCircleRunner.sign`: load the DEFAULT secrets, re-validate the
certificate path and (after the keychain script) the keychain database
path taken from environment variables, and run the two scripts.
`'-'.join([os.getenv('KEYCHAIN_FILE'), 'db'])` raises `TypeError` when the
variable is unset. -/
def sign (S : SysCtx) (c : MacCtx) (sign_param : OsEnv) : RunM Unit := do
  logDebug ("sign: " ++ reprEnv sign_param)
  load_config S secret_file_path (some "DEFAULT")
  let cert ← getenvM "CERT_P12_FILE"
  security_validation S.fs cert
  run_shell_script S (keychain_script c) none none none
  let kcOpt ← getenvM "KEYCHAIN_FILE"
  match kcOpt with
  | some kc => security_validation S.fs (some (kc ++ "-db"))
  | none => raiseErr PyError.typeError
  run_shell_script S (codesign_script c) none (some sign_param) (some c.cwd)

/-- `MacCircleRunner.upload_file_to_s3`: load the S3 secrets, and when the
source path is a regular file upload it to the fixed bucket under the
target path joined with its basename; otherwise raise. A missing target
path makes `os.path.join` raise `TypeError`. -/
def upload_file_to_s3 (S : SysCtx) (source_file_path : String)
    (s3_path : Option String) : RunM Unit := do
  let base_name := osBasename source_file_path
  load_config S secret_file_path (some "S3")
  if (S.fs source_file_path).isSome then
    match s3_path with
    | none => raiseErr PyError.typeError
    | some sp3 => do
        let s3_target_path := osJoin sp3 base_name
        emitEv (SysEvent.s3Upload source_file_path bucket_name s3_target_path)
        match S.s3 source_file_path bucket_name s3_target_path with
        | none => pure ()
        | some msg => raiseErr (PyError.botoError msg)
  else
    raiseErr (PyError.uploadInvalidFile source_file_path)

/-- `MacCircleRunner.do_the_job`: a falsy job name raises immediately; the
signing job validates the runner file itself and signs; the upload job
resolves the glob and uploads each match; any other name raises. A `None`
artifacts directory or file name makes `os.path.join` raise `TypeError`. -/
def do_the_job (S : SysCtx) (c : MacCtx) (job_name : Option String)
    (job_params : OsEnv) : RunM Unit :=
  match job_name with
  | none => raiseErr PyError.undefinedJobName
  | some jn =>
      if jn = "" then raiseErr PyError.undefinedJobName
      else if jn = "MAC_CODE_SIGN" then do
        security_validation S.fs (some c.own_file)
        sign S c job_params
      else if jn = "S3_UPLOAD" then
        match alookup job_params "ARTIFACTS_DIR", alookup job_params "FILE_NAME" with
        | some artifact_dir, some file_name => do
            let file_path := osJoin artifact_dir file_name
            let files := S.globFn file_path
            mFor files (fun local_path =>
              upload_file_to_s3 S local_path (alookup job_params "S3_TARGET_PATH"))
        | _, _ => raiseErr PyError.typeError
      else raiseErr (PyError.unknownJob jn)

/-- Python `try: body finally: cleanup`: the cleanup always runs; an
exception raised by the cleanup replaces the in-flight result, otherwise
the body's result stands. -/
def tryFinallyM (body cleanup : RunM Unit) : RunM Unit := fun env =>
  match body env with
  | (e1, ev1, r1) =>
      match cleanup e1 with
      | (e2, ev2, r2) =>
          (e2, ev1 ++ ev2,
            match r2 with
            | Except.ok _ => r1
            | Except.error err => Except.error err)

/-- The `__main__` block: the job name is read from the parameter map and
`do_the_job` runs under `try: ... finally: ms.teardown()`. -/
def main_dispatch (S : SysCtx) (c : MacCtx) (job_params : OsEnv) : RunM Unit :=
  tryFinallyM (do_the_job S c (alookup job_params "JOB_NAME") job_params)
    (teardown S c)

/-- Whether `security_validation` accepts the path: truthy, an existing
regular file, owned by root, octal mode string ending in "00". -/
def secOk (fs : FileSys) (file_path : Option String) : Bool :=
  let p := file_path.getD ""
  if p = "" then false
  else
    match fs p with
    | none => false
    | some st => st.owner == "root" && strEndsWith (pyOct st.mode) "00"

/-- The three failure kinds of the validator, named as in the spec. -/
inductive SecFailKind where
  | NotFound
  | UntrustedOwner
  | UnsafePermissions
deriving DecidableEq, Repr

/-- The first failing rule of `security_validation` on a path, `none` when
all rules pass (the checks short-circuit in this order). -/
def secFailKind (fs : FileSys) (file_path : Option String) : Option SecFailKind :=
  let p := file_path.getD ""
  if p = "" then some SecFailKind.NotFound
  else
    match fs p with
    | none => some SecFailKind.NotFound
    | some st =>
        if st.owner ≠ "root" then some SecFailKind.UntrustedOwner
        else if strEndsWith (pyOct st.mode) "00" then none
        else some SecFailKind.UnsafePermissions

/-- The ERROR log line the source emits for each failure kind. -/
def secKindMsg (fs : FileSys) (file_path : Option String) : SecFailKind → String
  | SecFailKind.NotFound => "script file doesn't exist " ++ pyStrOpt file_path
  | SecFailKind.UntrustedOwner =>
      "script file is not owned by root: " ++
        (match fs (file_path.getD "") with
         | some st => st.owner
         | none => "")
  | SecFailKind.UnsafePermissions =>
      "file permission error: expected to end with 00: " ++
        (match fs (file_path.getD "") with
         | some st => pyOct st.mode
         | none => "")

/-- The full event trace of `security_validation` on a path. -/
def secTrace (fs : FileSys) (file_path : Option String) : List SysEvent :=
  let p := file_path.getD ""
  let hd := SysEvent.logLine LogLv.debug ("validating script file " ++ pyStrOpt file_path)
  if p = "" then
    [hd, SysEvent.logLine LogLv.error ("script file doesn't exist " ++ pyStrOpt file_path)]
  else
    match fs p with
    | none =>
        [hd, SysEvent.logLine LogLv.error ("script file doesn't exist " ++ pyStrOpt file_path)]
    | some st =>
        let ownLine := SysEvent.logLine LogLv.debug ("file " ++ p ++ " with owner " ++ st.owner)
        if st.owner ≠ "root" then
          [hd, ownLine,
            SysEvent.logLine LogLv.error ("script file is not owned by root: " ++ st.owner)]
        else
          let permLine := SysEvent.logLine LogLv.debug ("file " ++ p ++ " with perm " ++ pyOct st.mode)
          if strEndsWith (pyOct st.mode) "00" then [hd, ownLine, permLine]
          else
            [hd, ownLine, permLine,
              SysEvent.logLine LogLv.error
                ("file permission error: expected to end with 00: " ++ pyOct st.mode)]

/-- The ERROR-severity log messages of a trace, in order. -/
def errorLines (tr : List SysEvent) : List String :=
  tr.filterMap (fun ev =>
    match ev with
    | SysEvent.logLine LogLv.error msg => some msg
    | _ => none)

/-- True when the trace spawns no child process. -/
def spawnFree (tr : List SysEvent) : Bool :=
  tr.all (fun ev =>
    match ev with
    | SysEvent.spawn _ _ _ => false
    | _ => true)

/-- The S3 upload calls of a trace: (local file, bucket, key), in order. -/
def s3Events (tr : List SysEvent) : List (String × String × String) :=
  tr.filterMap (fun ev =>
    match ev with
    | SysEvent.s3Upload f b k => some (f, b, k)
    | _ => none)

/-- How many spawned commands of the trace run the given script (the
script is the head of the command vector). -/
def spawnsOfScript (p : String) (tr : List SysEvent) : Nat :=
  (tr.filter (fun ev =>
    match ev with
    | SysEvent.spawn cmd _ _ => cmd.head? == some p
    | _ => false)).length

/-- The value the override list assigns to an (already upper-cased) key:
the value of its last entry whose upper-cased key matches, since later
entries overwrite earlier ones. -/
def lastUpperVal : OsEnv → String → Option String
  | [], _ => none
  | (k, v) :: rest, key =>
      match lastUpperVal rest key with
      | some w => some w
      | none => if asciiUpper k = key then some v else none

/-- Write each key of the list into the environment with the given value
function, in order. -/
def envWriteAll (e : OsEnv) (keys : List String) (valOf : String → String) : OsEnv :=
  keys.foldl (fun acc k => envSet acc k (valOf k)) e

/-- The events `run_shell_script` emits after the spawn, as a function of
the spawn outcome. -/
def spawnFollowTrace (script_file : String) (out : SpawnOutcome) : List SysEvent :=
  match out with
  | SpawnOutcome.raisesExc exc =>
      (match exc.stdoutAttr with
       | none => []
       | some o1 =>
           (match exc.stderrAttr with
            | none => [SysEvent.logLine LogLv.debug o1]
            | some o2 => [SysEvent.logLine LogLv.debug o1, SysEvent.logLine LogLv.debug o2]))
  | SpawnOutcome.completed _ out1 err1 =>
      [SysEvent.logLine LogLv.debug out1] ++
        (if err1 ≠ "" then
          [SysEvent.logLine LogLv.error ("error executing " ++ script_file ++ ": " ++ err1)]
         else [])

/-- The result of `run_shell_script` after a spawn, as a function of the
spawn outcome. -/
def spawnFollowResult (cmd : List String) (out : SpawnOutcome) : Except PyError Unit :=
  match out with
  | SpawnOutcome.raisesExc exc =>
      (match exc.stdoutAttr with
       | none => Except.error (PyError.attributeError "stdout")
       | some _ =>
           (match exc.stderrAttr with
            | none => Except.error (PyError.attributeError "stderr")
            | some _ => Except.error (PyError.spawnExc exc)))
  | SpawnOutcome.completed rc _ _ =>
      if rc ≠ 0 then Except.error (PyError.commandFailed cmd rc) else Except.ok ()

/-- The environment `load_config` leaves behind. -/
def lcEnv (S : SysCtx) (config_file : String) (title : Option String) (e : OsEnv) : OsEnv :=
  if secOk S.fs (some config_file) then
    let c := S.readCfg config_file
    let t := resolveTitle title
    if hasSection c t then envWriteAll e (sectionKeys c t) (sectionValue c t) else e
  else e

/-- The event trace of `load_config` (the environment writes add none). -/
def lcTrace (S : SysCtx) (config_file : String) : List SysEvent :=
  secTrace S.fs (some config_file)

/-- The result of `load_config`. -/
def lcResult (S : SysCtx) (config_file : String) (title : Option String) :
    Except PyError Unit :=
  if secOk S.fs (some config_file) then
    (if hasSection (S.readCfg config_file) (resolveTitle title) then Except.ok ()
     else Except.error (PyError.keyError (resolveTitle title)))
  else Except.error (PyError.validationFailed config_file)

/-- Fixture: stat of a root-owned file with mode 0o100400 (passes). -/
def statGood : FileStat := ⟨"root", 0o100400⟩

/-- Fixture: stat of a file owned by another principal. -/
def statAlice : FileStat := ⟨"alice", 0o100400⟩

/-- Fixture: stat of a root-owned file whose mode grants group access. -/
def statLoose : FileStat := ⟨"root", 0o100644⟩

/-- Fixture: the runner directory layout used by concrete scenarios. -/
def macW : MacCtx := ⟨"/rn", "/rn/macrunner.py", "/build"⟩

/-- Fixture: an empty parsed config. -/
def cfgEmpty : ConfigFile := ⟨[], []⟩

/-- Fixture: a filesystem with no files at all. -/
def fsNone : FileSys := fun _ => none

/-- Fixture: a spawner whose every call completes cleanly. -/
def spOk : Spawner := fun _ _ _ => SpawnOutcome.completed 0 "" ""

/-- Fixture: a fully inert world (no files, clean spawns, empty globs,
successful uploads, empty configs). -/
def sysInert : SysCtx :=
  ⟨fsNone, spOk, fun _ => [], fun _ _ _ => none, fun _ => cfgEmpty⟩

/-- Fixture for C2: only the keychain script exists and it is owned by a
principal other than root. -/
def sysC2 : SysCtx :=
  ⟨fun p => if p = "/rn/scripts/mac/setup-keychain.sh" then some statAlice else none,
   spOk, fun _ => [], fun _ _ _ => none, fun _ => cfgEmpty⟩

/-- Fixture for C3: a `FileNotFoundError`-shaped exception (there is no
`stdout` or `stderr` attribute on it). -/
def excNoAttrs : PyExc := ⟨"FileNotFoundError", none, none⟩

/-- Fixture for C3: the script is trusted but `subprocess.run` raises an
exception without captured-output attributes. -/
def sysC3 : SysCtx :=
  ⟨fun p => if p = "/ok.sh" then some statGood else none,
   fun _ _ _ => SpawnOutcome.raisesExc excNoAttrs,
   fun _ => [], fun _ _ _ => none, fun _ => cfgEmpty⟩

/-- Fixture for C4/C5 counterexamples: the teardown script exists but is
owned by another principal, so the teardown step itself fails. -/
def sysBadTd : SysCtx :=
  ⟨fun p => if p = "/rn/scripts/mac/teardown.sh" then some statAlice else none,
   spOk, fun _ => [], fun _ _ _ => none, fun _ => cfgEmpty⟩

/-- Fixture for the C4 witness: only the teardown script exists and it is
trusted, and every spawn completes cleanly. -/
def sysGoodTd : SysCtx :=
  ⟨fun p => if p = "/rn/scripts/mac/teardown.sh" then some statGood else none,
   spOk, fun _ => [], fun _ _ _ => none, fun _ => cfgEmpty⟩

/-- Fixture for C7: two trusted config files holding an `S3` section with
the same key and different values, plus a DEFAULT entry. -/
def cfgA : ConfigFile :=
  ⟨[("AMBIENT", "d")], [("S3", [("REGION", "us-east-1")])]⟩

/-- Fixture for C7: the second config file's parsed content. -/
def cfgB : ConfigFile :=
  ⟨[], [("S3", [("REGION", "eu-west-1")])]⟩

/-- Fixture for C7: both config paths are trusted; each parses to its own
content. -/
def sysC7 : SysCtx :=
  ⟨fun p => if p = "/a.ini" ∨ p = "/b.ini" then some statGood else none,
   spOk, fun _ => [],
   fun _ _ _ => none,
   fun p => if p = "/b.ini" then cfgB else cfgA⟩

/-- Fixture for C8: the secret file is trusted and has an `S3` section, the
glob matches two zip files that exist, and uploads succeed. -/
def sysC8a : SysCtx :=
  ⟨fun p =>
     if p = secret_file_path then some statGood
     else if p = "/tmp/art/a.zip" ∨ p = "/tmp/art/b.zip" then some statGood
     else none,
   spOk,
   fun pat => if pat = "/tmp/art/*.zip" then ["/tmp/art/a.zip", "/tmp/art/b.zip"] else [],
   fun _ _ _ => none,
   fun _ => ⟨[], [("S3", [])]⟩⟩

/-- Fixture for C8: the glob matches three files but the second no longer
exists at upload time, so its upload raises and aborts the rest. -/
def sysC8b : SysCtx :=
  ⟨fun p =>
     if p = secret_file_path then some statGood
     else if p = "/tmp/art/a.zip" ∨ p = "/tmp/art/c.zip" then some statGood
     else none,
   spOk,
   fun pat =>
     if pat = "/tmp/art/*.zip" then ["/tmp/art/a.zip", "/tmp/art/b.zip", "/tmp/art/c.zip"]
     else [],
   fun _ _ _ => none,
   fun _ => ⟨[], [("S3", [])]⟩⟩

/-- Fixture for C10: a config whose DEFAULT section holds a secret and
whose `S3` section holds its own key. -/
def cfgC10 : ConfigFile :=
  ⟨[("SECRET", "s3cr3t")], [("S3", [("REGION", "us-east-1")])]⟩

/-- Fixture for C10: the config path is trusted and parses to `cfgC10`. -/
def sysC10 : SysCtx :=
  ⟨fun p => if p = "/cfg.ini" then some statGood else none,
   spOk, fun _ => [], fun _ _ _ => none, fun _ => cfgC10⟩

/-- The job parameter map of the spec's first end-to-end scenario. -/
def jpUpload : OsEnv :=
  [("JOB_NAME", "S3_UPLOAD"), ("ARTIFACTS_DIR", "/tmp/art"),
   ("S3_TARGET_PATH", "builds/42"), ("FILE_NAME", "*.zip")]

/-- Every spawned command of the trace runs one of the allowed scripts
(the script is the head of the command vector). -/
def spawnsAmong (allowed : List String) (tr : List SysEvent) : Prop :=
  ∀ ev ∈ tr, ∀ cmd env cwd, ev = SysEvent.spawn cmd env cwd →
    ∃ p ∈ allowed, cmd.head? = some p

instance : DecidableEq (Except PyError Unit) := fun a b =>
  match a, b with
  | Except.ok (), Except.ok () => isTrue rfl
  | Except.error x, Except.error y =>
      if h : x = y then isTrue (by rw [h])
      else isFalse (fun hh => h (by cases hh; rfl))
  | Except.ok (), Except.error _ => isFalse (fun hh => by cases hh)
  | Except.error _, Except.ok () => isFalse (fun hh => by cases hh)

@[simp] theorem bind_apply {α β : Type} (x : RunM α) (f : α → RunM β) (e : OsEnv) :
    (x >>= f) e =
      match x e with
      | (e1, ev1, Except.ok a) =>
          match f a e1 with
          | (e2, ev2, r) => (e2, ev1 ++ ev2, r)
      | (e1, ev1, Except.error err) => (e1, ev1, Except.error err) := rfl

@[simp] theorem pure_apply {α : Type} (a : α) (e : OsEnv) :
    (pure a : RunM α) e = (e, [], Except.ok a) := rfl

@[simp] theorem logDebug_apply (msg : String) (e : OsEnv) :
    logDebug msg e = (e, [SysEvent.logLine LogLv.debug msg], Except.ok ()) := rfl

@[simp] theorem logErr_apply (msg : String) (e : OsEnv) :
    logErr msg e = (e, [SysEvent.logLine LogLv.error msg], Except.ok ()) := rfl

@[simp] theorem raiseErr_apply {α : Type} (err : PyError) (e : OsEnv) :
    (raiseErr err : RunM α) e = (e, [], Except.error err) := rfl

@[simp] theorem readEnvM_apply (e : OsEnv) : readEnvM e = (e, [], Except.ok e) := rfl

@[simp] theorem getenvM_apply (key : String) (e : OsEnv) :
    getenvM key e = (e, [], Except.ok (envGet e key)) := rfl

@[simp] theorem setenvM_apply (key val : String) (e : OsEnv) :
    setenvM key val e = (envSet e key val, [], Except.ok ()) := rfl

@[simp] theorem emitEv_apply (ev : SysEvent) (e : OsEnv) :
    emitEv ev e = (e, [ev], Except.ok ()) := rfl

/-- Closed form of `security_validation`: the environment is untouched,
the trace is `secTrace`, and the result is success or the aggregated
security exception naming the path, by `secOk`. -/
theorem security_validation_apply (fs : FileSys) (po : Option String) (e : OsEnv) :
    security_validation fs po e =
      (e, secTrace fs po,
        if secOk fs po then Except.ok ()
        else Except.error (PyError.validationFailed (pyStrOpt po))) := by
  unfold security_validation secTrace secOk
  by_cases hp : po.getD "" = ""
  · simp [hp]
  · cases hfs : fs (po.getD "") with
    | none => simp [hp, hfs]
    | some st =>
        by_cases hown : st.owner = "root"
        · by_cases hperm : strEndsWith (pyOct st.mode) "00"
          · simp [hp, hfs, check_file_owner, check_file_permission, hown, hperm]
          · simp [hp, hfs, check_file_owner, check_file_permission, hown, hperm]
        · simp [hp, hfs, check_file_owner, check_file_permission, hown]

/-- Dictionary semantics of the environment write. -/
theorem envGet_envSet (e : OsEnv) (k v key : String) :
    envGet (envSet e k v) key = if key = k then some v else envGet e key := by
  induction e with
  | nil =>
      simp only [envSet, envGet, alookup]
      by_cases h : k = key
      · subst h; simp
      · simp [h, Ne.symm h]
  | cons hd tl ih =>
      obtain ⟨a, b⟩ := hd
      simp only [envSet]
      by_cases hak : a = k
      · subst hak
        simp only [envGet, alookup]
        by_cases h : a = key
        · subst h; simp
        · simp [h, Ne.symm h]
      · simp only [envGet, alookup, hak, if_false]
        by_cases h : a = key
        · subst h
          simp [hak]
        · simpa [alookup, h] using ih

/-- Appending traces: spawn-freedom distributes. -/
theorem spawnFree_append (t1 t2 : List SysEvent) :
    spawnFree (t1 ++ t2) = (spawnFree t1 && spawnFree t2) := by
  simp [spawnFree, List.all_append]

/-- Appending traces: the ERROR lines concatenate. -/
theorem errorLines_append (t1 t2 : List SysEvent) :
    errorLines (t1 ++ t2) = errorLines t1 ++ errorLines t2 := by
  simp [errorLines, List.filterMap_append]

/-- Appending traces: the S3 upload calls concatenate. -/
theorem s3Events_append (t1 t2 : List SysEvent) :
    s3Events (t1 ++ t2) = s3Events t1 ++ s3Events t2 := by
  simp [s3Events, List.filterMap_append]

/-- Appending traces: the per-script spawn counts add. -/
theorem spawnsOfScript_append (p : String) (t1 t2 : List SysEvent) :
    spawnsOfScript p (t1 ++ t2) = spawnsOfScript p t1 + spawnsOfScript p t2 := by
  simp [spawnsOfScript, List.filter_append]

/-- A spawn-free trace runs no script at all. -/
theorem spawnsOfScript_of_spawnFree (p : String) (tr : List SysEvent)
    (h : spawnFree tr = true) : spawnsOfScript p tr = 0 := by
  induction tr with
  | nil => rfl
  | cons ev rest ih =>
      rw [spawnFree, List.all_cons, Bool.and_eq_true] at h
      have hrest := ih h.2
      cases ev with
      | logLine lv msg => simpa [spawnsOfScript, List.filter_cons] using hrest
      | spawn cmd env cwd => exact Bool.noConfusion h.1
      | s3Upload f b k => simpa [spawnsOfScript, List.filter_cons] using hrest

/-- The validator's trace spawns nothing. -/
theorem spawnFree_secTrace (fs : FileSys) (po : Option String) :
    spawnFree (secTrace fs po) = true := by
  unfold secTrace
  by_cases hp : po.getD "" = ""
  · simp [hp, spawnFree]
  · cases hfs : fs (po.getD "") with
    | none => simp [hp, hfs, spawnFree]
    | some st =>
        by_cases hown : st.owner = "root" <;>
          by_cases hperm : strEndsWith (pyOct st.mode) "00" <;>
            simp [hp, hfs, hown, hperm, spawnFree]

/-- The validator's trace uploads nothing. -/
theorem s3Events_secTrace (fs : FileSys) (po : Option String) :
    s3Events (secTrace fs po) = [] := by
  unfold secTrace
  by_cases hp : po.getD "" = ""
  · simp [hp, s3Events]
  · cases hfs : fs (po.getD "") with
    | none => simp [hp, hfs, s3Events]
    | some st =>
        by_cases hown : st.owner = "root" <;>
          by_cases hperm : strEndsWith (pyOct st.mode) "00" <;>
            simp [hp, hfs, hown, hperm, s3Events]

/-- Closed form of `run_shell_script`: the ambient environment is never
mutated; on validation failure nothing is spawned and the security
exception propagates; on success exactly one spawn of the command vector
happens in the overlaid child environment, followed by the outcome's logs
and result. -/
theorem run_shell_script_apply (S : SysCtx) (script : String)
    (args : Option (List String)) (env : Option OsEnv) (cwd : Option String)
    (e : OsEnv) :
    run_shell_script S script args env cwd e =
      (if secOk S.fs (some script) then
        (e,
         secTrace S.fs (some script) ++
           SysEvent.logLine LogLv.debug ("additional running env: " ++ reprEnvOpt env) ::
             SysEvent.spawn (cmdOf script args) (buildChildEnv e env) cwd ::
               spawnFollowTrace script (S.sp (cmdOf script args) (buildChildEnv e env) cwd),
         spawnFollowResult (cmdOf script args)
           (S.sp (cmdOf script args) (buildChildEnv e env) cwd))
      else (e, secTrace S.fs (some script),
        Except.error (PyError.validationFailed script))) := by
  unfold run_shell_script
  simp only [bind_apply, security_validation_apply, readEnvM_apply, logDebug_apply,
    emitEv_apply, pure_apply, raiseErr_apply, pyStrOpt]
  by_cases hv : secOk S.fs (some script)
  · simp only [hv, if_true]
    cases hout : S.sp (cmdOf script args) (buildChildEnv e env) cwd with
    | raisesExc exc =>
        cases h1 : exc.stdoutAttr <;> cases h2 : exc.stderrAttr <;>
          simp [spawnFollowTrace, spawnFollowResult, hout, h1, h2]
    | completed rc o1 o2 =>
        by_cases hrc : rc = 0 <;> by_cases he : o2 = "" <;>
          simp [spawnFollowTrace, spawnFollowResult, hout, hrc, he]
  · simp [hv]

/-- A loop of environment writes collapses to `envWriteAll`. -/
theorem mFor_setenv (keys : List String) (valOf : String → String) (e : OsEnv) :
    mFor keys (fun k => setenvM k (valOf k)) e =
      (envWriteAll e keys valOf, [], Except.ok ()) := by
  induction keys generalizing e with
  | nil => simp [mFor, envWriteAll]
  | cons k ks ih =>
      simp only [mFor, bind_apply, setenvM_apply]
      simpa [envWriteAll] using ih (envSet e k (valOf k))

/-- Keys outside the written list are untouched. -/
theorem envGet_envWriteAll_not_mem (e : OsEnv) (keys : List String)
    (valOf : String → String) (key : String) (h : key ∉ keys) :
    envGet (envWriteAll e keys valOf) key = envGet e key := by
  induction keys generalizing e with
  | nil => rfl
  | cons k ks ih =>
      have hk : key ≠ k := fun hh => h (hh ▸ List.mem_cons_self k ks)
      have hks : key ∉ ks := fun hh => h (List.mem_cons_of_mem k hh)
      calc envGet (envWriteAll (envSet e k (valOf k)) ks valOf) key
          = envGet (envSet e k (valOf k)) key := ih _ hks
        _ = envGet e key := by rw [envGet_envSet]; simp [hk]

/-- Every written key reads back its assigned value (keys distinct). -/
theorem envGet_envWriteAll_mem (e : OsEnv) (keys : List String)
    (valOf : String → String) (key : String) (hnd : keys.Nodup) (h : key ∈ keys) :
    envGet (envWriteAll e keys valOf) key = some (valOf key) := by
  induction keys generalizing e with
  | nil => cases h
  | cons k ks ih =>
      rcases List.mem_cons.mp h with hk | hk
      · subst hk
        have hks : key ∉ ks := (List.nodup_cons.mp hnd).1
        calc envGet (envWriteAll (envSet e key (valOf key)) ks valOf) key
            = envGet (envSet e key (valOf key)) key :=
              envGet_envWriteAll_not_mem _ _ _ _ hks
          _ = some (valOf key) := by rw [envGet_envSet]; simp
      · exact ih (envSet e k (valOf k)) (List.nodup_cons.mp hnd).2 hk

/-- Closed form of `load_config`. -/
theorem load_config_apply (S : SysCtx) (cf : String) (title : Option String)
    (e : OsEnv) :
    load_config S cf title e = (lcEnv S cf title e, lcTrace S cf, lcResult S cf title) := by
  unfold load_config lcEnv lcTrace lcResult
  simp only [bind_apply, security_validation_apply, pyStrOpt]
  by_cases hv : secOk S.fs (some cf)
  · simp only [hv, if_true]
    by_cases hs : hasSection (S.readCfg cf) (resolveTitle title)
    · simp [hs, mFor_setenv]
    · simp [hs]
  · simp [hv]

/-- `secOk` on a present path, spelled out. -/
theorem secOk_some_iff (fs : FileSys) (p : String) :
    secOk fs (some p) = true ↔
      (p ≠ "" ∧ ∃ st, fs p = some st ∧ st.owner = "root" ∧
        strEndsWith (pyOct st.mode) "00" = true) := by
  unfold secOk
  by_cases hp : p = ""
  · simp [hp]
  · cases hfs : fs p with
    | none => simp [hp, hfs]
    | some st => simp [hp, hfs, and_assoc]

/-- No failing rule means the validator accepts, and conversely. -/
theorem secFailKind_none_iff (fs : FileSys) (po : Option String) :
    secFailKind fs po = none ↔ secOk fs po = true := by
  unfold secFailKind secOk
  by_cases hp : po.getD "" = ""
  · simp [hp]
  · cases hfs : fs (po.getD "") with
    | none => simp [hp, hfs]
    | some st =>
        by_cases hown : st.owner = "root" <;>
          by_cases hperm : strEndsWith (pyOct st.mode) "00" <;>
            simp [hp, hfs, hown, hperm]

/-- The ERROR lines of the validator's trace: none on success, exactly the
first failing rule's message on failure. -/
theorem errorLines_secTrace (fs : FileSys) (po : Option String) :
    errorLines (secTrace fs po) =
      (match secFailKind fs po with
       | none => []
       | some k => [secKindMsg fs po k]) := by
  unfold secTrace secFailKind secKindMsg
  by_cases hp : po.getD "" = ""
  · simp [hp, errorLines]
  · cases hfs : fs (po.getD "") with
    | none => simp [hp, hfs, errorLines]
    | some st =>
        by_cases hown : st.owner = "root" <;>
          by_cases hperm : strEndsWith (pyOct st.mode) "00" <;>
            simp [hp, hfs, hown, hperm, errorLines]

/-- C1: for every path P, `security_validation` succeeds iff P is
non-empty, an existing regular file, owned by root, and its octal
permission string ends with "00"; on any failure the raised exception is
the aggregated security error naming the path (never any other error of
the program), and the ERROR-severity log names exactly the one failing
rule in check order (missing file, then untrusted owner, then unsafe
permissions). -/
theorem security_validation_spec (fs : FileSys) (p : String) (e : OsEnv) :
    ((security_validation fs (some p) e).2.2 = Except.ok () ↔
      (p ≠ "" ∧ ∃ st, fs p = some st ∧ st.owner = "root" ∧
        strEndsWith (pyOct st.mode) "00" = true))
    ∧ (security_validation fs (some p) e).2.2 =
        (match secFailKind fs (some p) with
         | none => Except.ok ()
         | some _ => Except.error (PyError.validationFailed p))
    ∧ errorLines (security_validation fs (some p) e).2.1 =
        (match secFailKind fs (some p) with
         | none => []
         | some k => [secKindMsg fs (some p) k]) := by
  rw [security_validation_apply]
  refine ⟨?_, ?_, ?_⟩
  · rw [← secOk_some_iff]
    by_cases hv : secOk fs (some p) <;> simp [hv]
  · cases hk : secFailKind fs (some p) with
    | none =>
        have hv : secOk fs (some p) = true := (secFailKind_none_iff fs (some p)).mp hk
        simp [hv]
    | some k =>
        have hv : ¬ secOk fs (some p) = true := by
          intro hv
          rw [(secFailKind_none_iff fs (some p)).mpr hv] at hk
          cases hk
        simp [hv, pyStrOpt]
  · simpa using errorLines_secTrace fs (some p)


/-- `load_config` never spawns a process. -/
theorem spawnFree_lcTrace (S : SysCtx) (cf : String) :
    spawnFree (lcTrace S cf) = true := spawnFree_secTrace S.fs (some cf)

/-- A log line never counts as a spawn. -/
theorem spawnFree_cons_log (lv : LogLv) (msg : String) (tr : List SysEvent) :
    spawnFree (SysEvent.logLine lv msg :: tr) = spawnFree tr := by
  simp [spawnFree]

/-- An existing file owned by another principal never validates. -/
theorem secOk_false_of_owner (fs : FileSys) (p : String) (st : FileStat)
    (hfs : fs p = some st) (hown : st.owner ≠ "root") :
    secOk fs (some p) = false := by
  unfold secOk
  by_cases hp : p = ""
  · simp [hp]
  · simp [hp, hfs, hown]

/-- When the keychain script fails validation, `sign` spawns nothing and
fails, whatever happened in the earlier non-spawning steps. -/
theorem sign_no_spawn_of_bad_keychain (S : SysCtx) (c : MacCtx) (jp : OsEnv)
    (e : OsEnv) (h : secOk S.fs (some (keychain_script c)) = false) :
    spawnFree (sign S c jp e).2.1 = true ∧
      ∃ err, (sign S c jp e).2.2 = Except.error err := by
  unfold sign
  simp only [bind_apply, logDebug_apply, load_config_apply, getenvM_apply]
  cases hlc : lcResult S secret_file_path (some "DEFAULT") with
  | error err =>
      simp [hlc, spawnFree_cons_log, spawnFree_lcTrace S secret_file_path]
  | ok a =>
      simp only [hlc]
      by_cases hcert :
          secOk S.fs (envGet (lcEnv S secret_file_path (some "DEFAULT") e) "CERT_P12_FILE")
      · simp [security_validation_apply, run_shell_script_apply, hcert, h,
          spawnFree_cons_log, spawnFree_append, spawnFree_lcTrace S secret_file_path,
          spawnFree_secTrace]
      · simp [security_validation_apply, hcert, spawnFree_cons_log, spawnFree_append,
          spawnFree_lcTrace S secret_file_path, spawnFree_secTrace]

/-- C2: `run_shell_script` and `load_config` validate their path first:
when validation fails the call returns the security error, the ambient
environment is exactly the caller's, and the trace (just the validator's
log lines) spawns no process; in particular the signing job with a
keychain script owned by a non-trusted principal fails with no process
ever spawned, so neither the keychain nor the codesign script runs. -/
theorem validate_before_execute (S : SysCtx) (c : MacCtx) :
    (∀ script args env cwd e, secOk S.fs (some script) = false →
      run_shell_script S script args env cwd e =
        (e, secTrace S.fs (some script),
          Except.error (PyError.validationFailed script)) ∧
      spawnFree (run_shell_script S script args env cwd e).2.1 = true)
    ∧ (∀ cf title e, secOk S.fs (some cf) = false →
        load_config S cf title e =
          (e, secTrace S.fs (some cf),
            Except.error (PyError.validationFailed cf)) ∧
        spawnFree (load_config S cf title e).2.1 = true)
    ∧ (∀ st jp e, S.fs (keychain_script c) = some st → st.owner ≠ "root" →
        spawnFree (do_the_job S c (some "MAC_CODE_SIGN") jp e).2.1 = true ∧
        ∃ err, (do_the_job S c (some "MAC_CODE_SIGN") jp e).2.2 = Except.error err) := by
  refine ⟨?_, ?_, ?_⟩
  · intro script args env cwd e h
    rw [run_shell_script_apply]
    simp [h, spawnFree_secTrace]
  · intro cf title e h
    rw [load_config_apply]
    unfold lcEnv lcTrace lcResult
    simp [h, spawnFree_secTrace]
  · intro st jp e hfs hown
    have hkc : secOk S.fs (some (keychain_script c)) = false :=
      secOk_false_of_owner S.fs (keychain_script c) st hfs hown
    have hstep : do_the_job S c (some "MAC_CODE_SIGN") jp =
        (security_validation S.fs (some c.own_file) >>= fun _ => sign S c jp) := rfl
    rw [hstep]
    simp only [bind_apply, security_validation_apply]
    by_cases hself : secOk S.fs (some c.own_file)
    · have hs := sign_no_spawn_of_bad_keychain S c jp e hkc
      simp only [hself, if_true]
      refine ⟨?_, ?_⟩
      · simp [spawnFree_append, spawnFree_secTrace, hs.1]
      · exact hs.2
    · simp [hself, spawnFree_secTrace]


/-- Witness for C2 at concrete inputs: a missing script, a missing config
and the signing job with the keychain script owned by `alice`. -/
theorem validate_before_execute_witness :
    secOk sysC2.fs (some "/nope.sh") = false ∧
    run_shell_script sysC2 "/nope.sh" none none none [] =
      ([], secTrace sysC2.fs (some "/nope.sh"),
        Except.error (PyError.validationFailed "/nope.sh")) ∧
    load_config sysC2 "/nope.ini" none [] =
      ([], secTrace sysC2.fs (some "/nope.ini"),
        Except.error (PyError.validationFailed "/nope.ini")) ∧
    sysC2.fs (keychain_script macW) = some statAlice ∧
    spawnFree (do_the_job sysC2 macW (some "MAC_CODE_SIGN") [] []).2.1 = true ∧
    ∃ err, (do_the_job sysC2 macW (some "MAC_CODE_SIGN") [] []).2.2 = Except.error err := by
  have h1 : secOk sysC2.fs (some "/nope.sh") = false := by decide
  have h2 : secOk sysC2.fs (some "/nope.ini") = false := by decide
  have h3 : sysC2.fs (keychain_script macW) = some statAlice := by decide
  have h4 : statAlice.owner ≠ "root" := by decide
  have hmain := validate_before_execute sysC2 macW
  exact ⟨h1, (hmain.1 "/nope.sh" none none none [] h1).1,
    (hmain.2.1 "/nope.ini" none [] h2).1, h3,
    (hmain.2.2 statAlice [] [] h3 h4).1, (hmain.2.2 statAlice [] [] h3 h4).2⟩

/-- C3 (divergence witness): the script `/ok.sh` is trusted and
`subprocess.run` raises a `FileNotFoundError`-shaped exception (no
captured-output attributes, as for a missing interpreter). The call does
not propagate that spawn error as-is: reading `e.stdout` inside the
`except` block raises `AttributeError`, which is the error that escapes. -/
theorem spawn_error_masked_by_logging :
    (run_shell_script sysC3 "/ok.sh" none none none []).2.2 =
        Except.error (PyError.attributeError "stdout") ∧
    PyError.attributeError "stdout" ≠ PyError.spawnExc excNoAttrs := by
  constructor
  · decide
  · decide

/-- Spawn coverage concatenates. -/
theorem spawnsAmong_append (A : List String) (t1 t2 : List SysEvent)
    (h1 : spawnsAmong A t1) (h2 : spawnsAmong A t2) : spawnsAmong A (t1 ++ t2) := by
  intro ev hev
  rcases List.mem_append.mp hev with h | h
  · exact h1 ev h
  · exact h2 ev h

/-- A spawn-free trace is covered by any allowance. -/
theorem spawnsAmong_of_spawnFree (A : List String) (tr : List SysEvent)
    (h : spawnFree tr = true) : spawnsAmong A tr := by
  intro ev hev cmd env cwd hspawn
  subst hspawn
  rw [spawnFree, List.all_eq_true] at h
  simpa using h _ hev

/-- Spawn coverage ignores a leading log line. -/
theorem spawnsAmong_cons_log (A : List String) (lv : LogLv) (msg : String)
    (tr : List SysEvent) (h : spawnsAmong A tr) :
    spawnsAmong A (SysEvent.logLine lv msg :: tr) := by
  intro ev hev cmd env cwd hspawn
  rcases List.mem_cons.mp hev with h0 | h0
  · rw [h0] at hspawn; cases hspawn
  · exact h ev h0 cmd env cwd hspawn

/-- The logs after a spawn never spawn. -/
theorem spawnFree_spawnFollowTrace (script : String) (out : SpawnOutcome) :
    spawnFree (spawnFollowTrace script out) = true := by
  unfold spawnFollowTrace
  cases out with
  | raisesExc exc =>
      cases h1 : exc.stdoutAttr <;> cases h2 : exc.stderrAttr <;> simp [h1, h2, spawnFree]
  | completed rc o1 o2 => by_cases he : o2 = "" <;> simp [he, spawnFree]

/-- `run_shell_script` spawns only its own script. -/
theorem spawnsAmong_run_shell_script (S : SysCtx) (script : String)
    (args : Option (List String)) (env : Option OsEnv) (cwd : Option String)
    (A : List String) (hA : script ∈ A) (e : OsEnv) :
    spawnsAmong A (run_shell_script S script args env cwd e).2.1 := by
  rw [run_shell_script_apply]
  by_cases hv : secOk S.fs (some script)
  · simp only [hv, if_true]
    apply spawnsAmong_append
    · exact spawnsAmong_of_spawnFree A _ (spawnFree_secTrace _ _)
    · apply spawnsAmong_cons_log
      intro ev hev cmd env2 cwd2 hspawn
      rcases List.mem_cons.mp hev with h0 | h0
      · rw [h0] at hspawn
        cases hspawn
        refine ⟨script, hA, ?_⟩
        cases args <;> rfl
      · exact spawnsAmong_of_spawnFree A _ (spawnFree_spawnFollowTrace _ _) ev h0
          cmd env2 cwd2 hspawn
  · simp only [hv, if_false]
    exact spawnsAmong_of_spawnFree A _ (spawnFree_secTrace _ _)

/-- Spawn coverage of a bind follows from coverage of the two stages. -/
theorem spawnsAmong_bind {α : Type} (A : List String) (x : RunM α)
    (f : α → RunM Unit) (hx : ∀ e, spawnsAmong A (x e).2.1)
    (hf : ∀ a e, spawnsAmong A (f a e).2.1) :
    ∀ e, spawnsAmong A ((x >>= f) e).2.1 := by
  intro e
  rw [bind_apply]
  rcases hxe : x e with ⟨e1, ev1, r1⟩
  have hx1 : spawnsAmong A ev1 := by have := hx e; rw [hxe] at this; exact this
  cases r1 with
  | ok a =>
      rcases hfa : f a e1 with ⟨e2, ev2, r2⟩
      have hf1 : spawnsAmong A ev2 := by have := hf a e1; rw [hfa] at this; exact this
      simpa [hfa] using spawnsAmong_append A ev1 ev2 hx1 hf1
  | error err => simpa using hx1

/-- `load_config` never spawns. -/
theorem spawnFree_load_config (S : SysCtx) (cf : String) (title : Option String)
    (e : OsEnv) : spawnFree (load_config S cf title e).2.1 = true := by
  rw [load_config_apply]
  exact spawnFree_lcTrace S cf

/-- `security_validation` never spawns. -/
theorem spawnFree_security_validation (fs : FileSys) (po : Option String)
    (e : OsEnv) : spawnFree (security_validation fs po e).2.1 = true := by
  rw [security_validation_apply]
  exact spawnFree_secTrace fs po

/-- `sign` spawns only the keychain and codesign scripts. -/
theorem spawnsAmong_sign (S : SysCtx) (c : MacCtx) (jp : OsEnv) (A : List String)
    (h1 : keychain_script c ∈ A) (h2 : codesign_script c ∈ A) :
    ∀ e, spawnsAmong A (sign S c jp e).2.1 := by
  unfold sign
  refine spawnsAmong_bind A _ _
    (fun e => spawnsAmong_of_spawnFree A _ (by simp [logDebug, spawnFree])) ?_
  intro _
  refine spawnsAmong_bind A _ _
    (fun e => spawnsAmong_of_spawnFree A _ (spawnFree_load_config S _ _ e)) ?_
  intro _
  refine spawnsAmong_bind A _ _
    (fun e => spawnsAmong_of_spawnFree A _ (by simp [getenvM, spawnFree])) ?_
  intro cert
  refine spawnsAmong_bind A _ _
    (fun e => spawnsAmong_of_spawnFree A _ (spawnFree_security_validation S.fs cert e)) ?_
  intro _
  refine spawnsAmong_bind A _ _
    (fun e => spawnsAmong_run_shell_script S _ none none none A h1 e) ?_
  intro _
  refine spawnsAmong_bind A _ _
    (fun e => spawnsAmong_of_spawnFree A _ (by simp [getenvM, spawnFree])) ?_
  intro kcOpt
  cases kcOpt with
  | some kc =>
      refine spawnsAmong_bind A _ _
        (fun e => spawnsAmong_of_spawnFree A _ (spawnFree_security_validation S.fs _ e)) ?_
      intro _
      exact fun e => spawnsAmong_run_shell_script S _ none (some jp) (some c.cwd) A h2 e
  | none =>
      refine spawnsAmong_bind A _ _
        (fun e => spawnsAmong_of_spawnFree A _ (by simp [raiseErr, spawnFree])) ?_
      intro _
      exact fun e => spawnsAmong_run_shell_script S _ none (some jp) (some c.cwd) A h2 e

/-- A leading S3 call never counts as a spawn. -/
theorem spawnFree_cons_s3 (f b k : String) (tr : List SysEvent) :
    spawnFree (SysEvent.s3Upload f b k :: tr) = spawnFree tr := by
  simp [spawnFree]

/-- `upload_file_to_s3` never spawns. -/
theorem spawnFree_upload (S : SysCtx) (f : String) (sp3 : Option String)
    (e : OsEnv) : spawnFree (upload_file_to_s3 S f sp3 e).2.1 = true := by
  unfold upload_file_to_s3
  simp only [bind_apply, load_config_apply]
  cases hlc : lcResult S secret_file_path (some "S3") with
  | error err => simpa using spawnFree_lcTrace S secret_file_path
  | ok a =>
      simp only [hlc]
      by_cases hf : (S.fs f).isSome
      · cases sp3 with
        | none => simp [hf, raiseErr, spawnFree_append, spawnFree_lcTrace S secret_file_path]
        | some sp3v =>
            cases hs3 : S.s3 f bucket_name (osJoin sp3v (osBasename f)) with
            | none =>
                simp [hf, hs3, spawnFree, spawnFree_append, spawnFree_cons_s3]
                have h0 := spawnFree_lcTrace S secret_file_path
                rw [spawnFree, List.all_eq_true] at h0
                exact h0
            | some msg =>
                simp [hf, hs3, raiseErr, spawnFree, spawnFree_append, spawnFree_cons_s3]
                have h0 := spawnFree_lcTrace S secret_file_path
                rw [spawnFree, List.all_eq_true] at h0
                exact h0
      · simp [hf, raiseErr, spawnFree_append, spawnFree_lcTrace S secret_file_path]

/-- A loop of spawn-free bodies is spawn-free. -/
theorem spawnFree_mFor {α : Type} (l : List α) (f : α → RunM Unit)
    (h : ∀ a e, spawnFree (f a e).2.1 = true) :
    ∀ e, spawnFree (mFor l f e).2.1 = true := by
  induction l with
  | nil => intro e; simp [mFor, spawnFree]
  | cons a rest ih =>
      intro e
      simp only [mFor, bind_apply]
      rcases hfa : f a e with ⟨e1, ev1, r1⟩
      have h1 : spawnFree ev1 = true := by have := h a e; rw [hfa] at this; exact this
      cases r1 with
      | ok u => simp [spawnFree_append, h1, ih e1]
      | error err => simpa using h1

/-- `do_the_job` spawns only the keychain and codesign scripts (the upload
job and the error paths spawn nothing). -/
theorem spawnsAmong_do_the_job (S : SysCtx) (c : MacCtx) (jn : Option String)
    (jp : OsEnv) (A : List String) (h1 : keychain_script c ∈ A)
    (h2 : codesign_script c ∈ A) :
    ∀ e, spawnsAmong A (do_the_job S c jn jp e).2.1 := by
  unfold do_the_job
  cases jn with
  | none => exact fun e => spawnsAmong_of_spawnFree A _ (by simp [raiseErr, spawnFree])
  | some s =>
      by_cases hs0 : s = ""
      · simp only [hs0, if_true]
        exact fun e => spawnsAmong_of_spawnFree A _ (by simp [raiseErr, spawnFree])
      · by_cases hs1 : s = "MAC_CODE_SIGN"
        · simp only [hs0, hs1, if_false, if_true]
          refine spawnsAmong_bind A _ _
            (fun e => spawnsAmong_of_spawnFree A _ (spawnFree_security_validation S.fs _ e)) ?_
          intro _
          exact spawnsAmong_sign S c jp A h1 h2
        · by_cases hs2 : s = "S3_UPLOAD"
          · simp only [hs0, hs1, hs2, if_false, if_true]
            cases hd : alookup jp "ARTIFACTS_DIR" with
            | none =>
                cases hf : alookup jp "FILE_NAME" <;>
                  exact fun e => spawnsAmong_of_spawnFree A _ (by simp [raiseErr, spawnFree])
            | some ad =>
                cases hf : alookup jp "FILE_NAME" with
                | none =>
                    exact fun e => spawnsAmong_of_spawnFree A _ (by simp [raiseErr, spawnFree])
                | some fn =>
                    exact fun e => spawnsAmong_of_spawnFree A _
                      (spawnFree_mFor _ _ (fun a e2 => spawnFree_upload S a _ e2) e)
          · simp only [hs0, hs1, hs2, if_false]
            exact fun e => spawnsAmong_of_spawnFree A _ (by simp [raiseErr, spawnFree])

/-- A trace covered by scripts other than `p` never runs `p`. -/
theorem spawnsOfScript_eq_zero_of_among (p : String) (A : List String)
    (tr : List SysEvent) (h : spawnsAmong A tr) (hp : ∀ q ∈ A, q ≠ p) :
    spawnsOfScript p tr = 0 := by
  induction tr with
  | nil => rfl
  | cons ev rest ih =>
      have hrest : spawnsAmong A rest := fun ev2 hev2 => h ev2 (List.mem_cons_of_mem _ hev2)
      cases ev with
      | logLine lv msg => simpa [spawnsOfScript, List.filter_cons] using ih hrest
      | s3Upload f b k => simpa [spawnsOfScript, List.filter_cons] using ih hrest
      | spawn cmd env cwd =>
          rcases h _ (List.mem_cons_self _ _) cmd env cwd rfl with ⟨q, hqA, hq⟩
          have hne : (cmd.head? == some p) = false := by
            rw [hq]
            simp [hp q hqA]
          simpa [spawnsOfScript, List.filter_cons, hne] using ih hrest


/-- Closed form of `try/finally`: the cleanup's events follow the body's,
the cleanup runs from the body's final environment, and the cleanup's
error, if any, replaces the body's result. -/
theorem tryFinallyM_apply (body cleanup : RunM Unit) (e : OsEnv) :
    tryFinallyM body cleanup e =
      ((cleanup (body e).1).1,
       (body e).2.1 ++ (cleanup (body e).1).2.1,
       match (cleanup (body e).1).2.2 with
       | Except.ok _ => (body e).2.2
       | Except.error err => Except.error err) := by
  unfold tryFinallyM
  rcases hb : body e with ⟨e1, ev1, r1⟩
  rcases hc : cleanup e1 with ⟨e2, ev2, r2⟩
  simp [hb, hc]

/-- C4 (amended): the teardown step runs exactly once, unconditionally,
after the job body's events, whatever the job name or outcome; provided
the teardown step itself succeeds (trusted script, clean exit), the trace
spawns the teardown script exactly once and the job body's own result —
success or its original error — is exactly what dispatch reports. -/
theorem dispatch_teardown_spec (S : SysCtx) (c : MacCtx) (jp e : OsEnv)
    (h1 : secOk S.fs (some (teardown_script c)) = true)
    (h2 : ∀ env2 cwd2, S.sp [teardown_script c] env2 cwd2 =
      SpawnOutcome.completed 0 "" "")
    (h3 : keychain_script c ≠ teardown_script c)
    (h4 : codesign_script c ≠ teardown_script c) :
    (main_dispatch S c jp e).2.1 =
      (do_the_job S c (alookup jp "JOB_NAME") jp e).2.1 ++
        (teardown S c (do_the_job S c (alookup jp "JOB_NAME") jp e).1).2.1 ∧
    spawnsOfScript (teardown_script c) (main_dispatch S c jp e).2.1 = 1 ∧
    (main_dispatch S c jp e).2.2 = (do_the_job S c (alookup jp "JOB_NAME") jp e).2.2 := by
  have htd : teardown_script c ≠ "" := by
    intro h0
    rw [h0] at h1
    simp [secOk] at h1
  have hteardown : ∀ e2, teardown S c e2 =
      (e2,
       secTrace S.fs (some (teardown_script c)) ++
         SysEvent.logLine LogLv.debug ("additional running env: " ++ reprEnvOpt none) ::
           SysEvent.spawn [teardown_script c] e2 none ::
             [SysEvent.logLine LogLv.debug ""],
       Except.ok ()) := by
    intro e2
    unfold teardown
    simp [htd, run_shell_script_apply, h1, h2 e2 none, cmdOf, buildChildEnv,
      spawnFollowTrace, spawnFollowResult]
  have hmain : main_dispatch S c jp e =
      ((do_the_job S c (alookup jp "JOB_NAME") jp e).1,
       (do_the_job S c (alookup jp "JOB_NAME") jp e).2.1 ++
         (secTrace S.fs (some (teardown_script c)) ++
           SysEvent.logLine LogLv.debug ("additional running env: " ++ reprEnvOpt none) ::
             SysEvent.spawn [teardown_script c]
                 (do_the_job S c (alookup jp "JOB_NAME") jp e).1 none ::
               [SysEvent.logLine LogLv.debug ""]),
       (do_the_job S c (alookup jp "JOB_NAME") jp e).2.2) := by
    unfold main_dispatch
    rw [tryFinallyM_apply, hteardown ((do_the_job S c (alookup jp "JOB_NAME") jp e).1)]
  refine ⟨?_, ?_, ?_⟩
  · rw [hmain, hteardown ((do_the_job S c (alookup jp "JOB_NAME") jp e).1)]
  · rw [hmain]
    have hz : spawnsOfScript (teardown_script c)
        (do_the_job S c (alookup jp "JOB_NAME") jp e).2.1 = 0 := by
      refine spawnsOfScript_eq_zero_of_among _ [keychain_script c, codesign_script c] _
        (spawnsAmong_do_the_job S c (alookup jp "JOB_NAME") jp _ (by simp) (by simp) e) ?_
      intro q hq
      simp at hq
      rcases hq with rfl | rfl
      · exact h3
      · exact h4
    simp only [spawnsOfScript_append, hz,
      spawnsOfScript_of_spawnFree _ _ (spawnFree_secTrace S.fs (some (teardown_script c)))]
    simp [spawnsOfScript, List.filter_cons]
  · rw [hmain]

/-- C4 counterexample: with the teardown script owned by `alice` and an
unknown job name, the job body fails with the unknown-job error but the
error dispatch reports is the teardown validation failure — the original
error from the job body is not the one reported. -/
theorem dispatch_original_error_cex :
    (do_the_job sysBadTd macW (some "NOPE") [("JOB_NAME", "NOPE")] []).2.2 =
        Except.error (PyError.unknownJob "NOPE") ∧
    (main_dispatch sysBadTd macW [("JOB_NAME", "NOPE")] []).2.2 =
        Except.error (PyError.validationFailed "/rn/scripts/mac/teardown.sh") ∧
    PyError.validationFailed "/rn/scripts/mac/teardown.sh" ≠ PyError.unknownJob "NOPE" := by
  exact ⟨by decide, by decide, by decide⟩

/-- Witness for the amended C4: trusted teardown, clean spawns, unknown
job name; the teardown script runs exactly once and the unknown-job error
is the one reported. -/
theorem dispatch_teardown_spec_witness :
    secOk sysGoodTd.fs (some (teardown_script macW)) = true ∧
    keychain_script macW ≠ teardown_script macW ∧
    codesign_script macW ≠ teardown_script macW ∧
    spawnsOfScript (teardown_script macW)
        (main_dispatch sysGoodTd macW [("JOB_NAME", "NOPE")] []).2.1 = 1 ∧
    (main_dispatch sysGoodTd macW [("JOB_NAME", "NOPE")] []).2.2 =
        Except.error (PyError.unknownJob "NOPE") := by
  have h1 : secOk sysGoodTd.fs (some (teardown_script macW)) = true := by decide
  have h2 : ∀ env2 cwd2, sysGoodTd.sp [teardown_script macW] env2 cwd2 =
      SpawnOutcome.completed 0 "" "" := fun _ _ => rfl
  have h3 : keychain_script macW ≠ teardown_script macW := by decide
  have h4 : codesign_script macW ≠ teardown_script macW := by decide
  have hmain := dispatch_teardown_spec sysGoodTd macW [("JOB_NAME", "NOPE")] [] h1 h2 h3 h4
  refine ⟨h1, h3, h4, hmain.2.1, ?_⟩
  rw [hmain.2.2]
  decide

/-- C5 (amended): when the job body fails and the teardown step then also
fails, the teardown failure replaces the original error: the teardown
error is the one that propagates out of dispatch (the teardown step still
runs — its events follow the body's — but its exception is thrown over
the in-flight failure instead of being logged and swallowed). -/
theorem teardown_failure_masks (S : SysCtx) (c : MacCtx) (jp e : OsEnv)
    (err1 err2 : PyError)
    (hb : (do_the_job S c (alookup jp "JOB_NAME") jp e).2.2 = Except.error err1)
    (ht : (teardown S c (do_the_job S c (alookup jp "JOB_NAME") jp e).1).2.2 =
      Except.error err2) :
    (main_dispatch S c jp e).2.2 = Except.error err2 ∧
    (main_dispatch S c jp e).2.1 =
      (do_the_job S c (alookup jp "JOB_NAME") jp e).2.1 ++
        (teardown S c (do_the_job S c (alookup jp "JOB_NAME") jp e).1).2.1 := by
  unfold main_dispatch
  rw [tryFinallyM_apply, ht]
  constructor
  · simp
  · simp

/-- C5 counterexample: missing job name plus a teardown script owned by
`alice`: the body's missing-job-name error is replaced by the teardown
validation failure. -/
theorem teardown_masking_cex :
    (do_the_job sysBadTd macW (alookup ([] : OsEnv) "JOB_NAME") [] []).2.2 =
        Except.error PyError.undefinedJobName ∧
    (main_dispatch sysBadTd macW [] []).2.2 =
        Except.error (PyError.validationFailed "/rn/scripts/mac/teardown.sh") ∧
    PyError.validationFailed "/rn/scripts/mac/teardown.sh" ≠ PyError.undefinedJobName := by
  exact ⟨by decide, by decide, by decide⟩

/-- Witness for the amended C5 at a concrete input. -/
theorem teardown_failure_masks_witness :
    (do_the_job sysBadTd macW (alookup [("JOB_NAME", "OTHER")] "JOB_NAME")
        [("JOB_NAME", "OTHER")] []).2.2 = Except.error (PyError.unknownJob "OTHER") ∧
    (teardown sysBadTd macW
        (do_the_job sysBadTd macW (alookup [("JOB_NAME", "OTHER")] "JOB_NAME")
          [("JOB_NAME", "OTHER")] []).1).2.2 =
      Except.error (PyError.validationFailed "/rn/scripts/mac/teardown.sh") ∧
    (main_dispatch sysBadTd macW [("JOB_NAME", "OTHER")] []).2.2 =
      Except.error (PyError.validationFailed "/rn/scripts/mac/teardown.sh") := by
  have hb : (do_the_job sysBadTd macW (alookup [("JOB_NAME", "OTHER")] "JOB_NAME")
      [("JOB_NAME", "OTHER")] []).2.2 = Except.error (PyError.unknownJob "OTHER") := by
    decide
  have ht : (teardown sysBadTd macW
      (do_the_job sysBadTd macW (alookup [("JOB_NAME", "OTHER")] "JOB_NAME")
        [("JOB_NAME", "OTHER")] []).1).2.2 =
      Except.error (PyError.validationFailed "/rn/scripts/mac/teardown.sh") := by
    decide
  exact ⟨hb, ht,
    (teardown_failure_masks sysBadTd macW [("JOB_NAME", "OTHER")] []
      (PyError.unknownJob "OTHER")
      (PyError.validationFailed "/rn/scripts/mac/teardown.sh") hb ht).1⟩

/-- Pointwise reading of the overlay fold: an overridden key (after
upper-casing) reads its last override value, anything else reads the
ambient value. -/
theorem envGet_buildChildEnv (ov : OsEnv) (e : OsEnv) (k : String) :
    envGet (buildChildEnv e (some ov)) k =
      (match lastUpperVal ov k with
       | some v => some v
       | none => envGet e k) := by
  induction ov generalizing e with
  | nil => rfl
  | cons p rest ih =>
      obtain ⟨pk, pv⟩ := p
      show envGet (buildChildEnv (envSet e (asciiUpper pk) pv) (some rest)) k = _
      rw [ih]
      cases hrest : lastUpperVal rest k with
      | some w => simp [lastUpperVal, hrest]
      | none =>
          simp only [lastUpperVal, hrest]
          rw [envGet_envSet]
          by_cases hk : asciiUpper pk = k
          · simp [hk]
          · have hk2 : k ≠ asciiUpper pk := fun h => hk h.symm
            simp [hk, hk2]

/-- `run_shell_script` never mutates the caller's environment. -/
theorem run_shell_script_env_frame (S : SysCtx) (script : String)
    (args : Option (List String)) (env : Option OsEnv) (cwd : Option String)
    (e : OsEnv) : (run_shell_script S script args env cwd e).1 = e := by
  rw [run_shell_script_apply]
  by_cases hv : secOk S.fs (some script) <;> simp [hv]

/-- C6: the child environment is the ambient environment overlaid with the
override map, each override key upper-cased (later entries win), ambient
entries preserved where not overridden; the ambient environment `{A:1}`
with override `{b:2}` yields the child `{A:1, B:2}`; and the caller's own
process environment is never mutated by `run_shell_script`. -/
theorem child_env_overlay (e ov : OsEnv) (k : String) (S : SysCtx)
    (script : String) (args : Option (List String)) (cwd : Option String) :
    envGet (buildChildEnv e (some ov)) k =
      (match lastUpperVal ov k with
       | some v => some v
       | none => envGet e k) ∧
    (run_shell_script S script args (some ov) cwd e).1 = e ∧
    envGet (buildChildEnv [("A", "1")] (some [("b", "2")])) "A" = some "1" ∧
    envGet (buildChildEnv [("A", "1")] (some [("b", "2")])) "B" = some "2" := by
  exact ⟨envGet_buildChildEnv ov e k,
    run_shell_script_env_frame S script args (some ov) cwd e,
    by decide, by decide⟩

/-- What a successful `load_config` does to the environment: every key of
the resolved section reads back its resolved value, all other keys are
untouched. -/
theorem load_config_env_spec (S : SysCtx) (cf : String) (title : Option String)
    (e : OsEnv) (hv : secOk S.fs (some cf) = true)
    (hs : hasSection (S.readCfg cf) (resolveTitle title) = true)
    (hnd : (sectionKeys (S.readCfg cf) (resolveTitle title)).Nodup) :
    (load_config S cf title e).2.2 = Except.ok () ∧
    (∀ k, k ∈ sectionKeys (S.readCfg cf) (resolveTitle title) →
      envGet (load_config S cf title e).1 k =
        some (sectionValue (S.readCfg cf) (resolveTitle title) k)) ∧
    (∀ k, k ∉ sectionKeys (S.readCfg cf) (resolveTitle title) →
      envGet (load_config S cf title e).1 k = envGet e k) := by
  rw [load_config_apply]
  unfold lcEnv lcResult
  simp only [hv, hs, if_true]
  refine ⟨trivial, ?_, ?_⟩
  · intro k hk
    exact envGet_envWriteAll_mem e _ _ k hnd hk
  · intro k hk
    exact envGet_envWriteAll_not_mem e _ _ k hk

/-- C7: on a validated config file with an existing resolved section (the
reserved DEFAULT section when the title is falsy), `load_config` succeeds
and writes every key of the resolved section into the ambient environment
with its exact (case-preserved) name and resolved value, overwriting
whatever value the environment held before; hence a second load whose
resolved section collides on a key leaves that key at the second load's
value (last-loaded-wins, no namespacing). -/
theorem load_config_writes_env (S : SysCtx) (cf : String) (title : Option String)
    (e : OsEnv) (hv : secOk S.fs (some cf) = true)
    (hs : hasSection (S.readCfg cf) (resolveTitle title) = true)
    (hnd : (sectionKeys (S.readCfg cf) (resolveTitle title)).Nodup) :
    (load_config S cf title e).2.2 = Except.ok () ∧
    (∀ k, k ∈ sectionKeys (S.readCfg cf) (resolveTitle title) →
      envGet (load_config S cf title e).1 k =
        some (sectionValue (S.readCfg cf) (resolveTitle title) k)) ∧
    (∀ cf2 title2, secOk S.fs (some cf2) = true →
      hasSection (S.readCfg cf2) (resolveTitle title2) = true →
      (sectionKeys (S.readCfg cf2) (resolveTitle title2)).Nodup →
      ∀ k, k ∈ sectionKeys (S.readCfg cf2) (resolveTitle title2) →
        envGet (load_config S cf2 title2 (load_config S cf title e).1).1 k =
          some (sectionValue (S.readCfg cf2) (resolveTitle title2) k)) := by
  refine ⟨(load_config_env_spec S cf title e hv hs hnd).1,
    (load_config_env_spec S cf title e hv hs hnd).2.1, ?_⟩
  intro cf2 title2 hv2 hs2 hnd2 k hk
  exact (load_config_env_spec S cf2 title2 (load_config S cf title e).1 hv2 hs2 hnd2).2.1 k hk

/-- Witness for C7: loading section `S3` from a config holding
`REGION=us-east-1` makes the environment hold that value; loading a second
config whose `S3` section holds `REGION=eu-west-1` overwrites it. -/
theorem load_config_writes_env_witness :
    secOk sysC7.fs (some "/a.ini") = true ∧
    hasSection (sysC7.readCfg "/a.ini") (resolveTitle (some "S3")) = true ∧
    envGet (load_config sysC7 "/a.ini" (some "S3") []).1 "REGION" = some "us-east-1" ∧
    envGet (load_config sysC7 "/b.ini" (some "S3")
        (load_config sysC7 "/a.ini" (some "S3") []).1).1 "REGION" = some "eu-west-1" := by
  have h1 : secOk sysC7.fs (some "/a.ini") = true := by decide
  have h2 : hasSection (sysC7.readCfg "/a.ini") (resolveTitle (some "S3")) = true := by
    decide
  have h3 : (sectionKeys (sysC7.readCfg "/a.ini") (resolveTitle (some "S3"))).Nodup := by
    decide
  have hmain := load_config_writes_env sysC7 "/a.ini" (some "S3") [] h1 h2 h3
  refine ⟨h1, h2, ?_, ?_⟩
  · exact (hmain.2.1 "REGION" (by decide)).trans (by decide)
  · exact (hmain.2.2 "/b.ini" (some "S3") (by decide) (by decide) (by decide)
      "REGION" (by decide)).trans (by decide)

/-- A lookup miss means the key is not among the stored keys. -/
theorem alookup_eq_none {β : Type} (l : List (String × β)) (k : String) :
    alookup l k = none ↔ k ∉ l.map Prod.fst := by
  induction l with
  | nil => simp [alookup]
  | cons p rest ih =>
      obtain ⟨a, b⟩ := p
      by_cases h : a = k
      · subst h; simp [alookup]
      · simp [alookup, h, ih, Ne.symm h]

/-- A lookup hit means the key is among the stored keys. -/
theorem mem_of_alookup_some {β : Type} (l : List (String × β)) (k : String) (v : β)
    (h : alookup l k = some v) : k ∈ l.map Prod.fst := by
  induction l with
  | nil => cases h
  | cons p rest ih =>
      obtain ⟨a, b⟩ := p
      by_cases ha : a = k
      · subst ha; simp
      · simp only [alookup, ha, if_false] at h
        simp [ih h]

/-- Every DEFAULT key appears among the resolved keys of a named section
(configparser default-section inheritance). -/
theorem mem_sectionKeys_default (c : ConfigFile) (s : String)
    (own : List (String × String)) (hsne : s ≠ "DEFAULT")
    (hsec : ownSection c s = some own) (k : String)
    (hk : k ∈ c.defaults.map Prod.fst) : k ∈ sectionKeys c s := by
  unfold sectionKeys
  rw [if_neg hsne, hsec]
  by_cases ho : k ∈ own.map Prod.fst
  · exact List.mem_append_left _ ho
  · refine List.mem_append_right _ ?_
    rw [List.mem_filter]
    refine ⟨hk, ?_⟩
    rw [Option.isNone_iff_eq_none, alookup_eq_none]
    exact ho

/-- A DEFAULT key not shadowed by the named section resolves to its
DEFAULT value. -/
theorem sectionValue_default (c : ConfigFile) (s : String)
    (own : List (String × String)) (k v : String) (hsne : s ≠ "DEFAULT")
    (hsec : ownSection c s = some own) (hko : alookup own k = none)
    (hkv : alookup c.defaults k = some v) : sectionValue c s k = v := by
  simp [sectionValue, hsne, hsec, hko, hkv]

/-- C10: loading a *named* section also writes every key of the DEFAULT
section into the ambient environment — a key the named section does not
shadow gets its DEFAULT value — so secrets placed in DEFAULT are applied
on every sectioned load, not only when the title is omitted. -/
theorem default_section_inherited (S : SysCtx) (cf s : String)
    (own : List (String × String)) (e : OsEnv)
    (hv : secOk S.fs (some cf) = true) (hsne : s ≠ "DEFAULT") (hs0 : s ≠ "")
    (hsec : ownSection (S.readCfg cf) s = some own)
    (hnd : (sectionKeys (S.readCfg cf) s).Nodup) :
    (∀ k, k ∈ (S.readCfg cf).defaults.map Prod.fst →
      envGet (load_config S cf (some s) e).1 k =
        some (sectionValue (S.readCfg cf) s k)) ∧
    (∀ k v, alookup own k = none → alookup (S.readCfg cf).defaults k = some v →
      envGet (load_config S cf (some s) e).1 k = some v) := by
  have hrt : resolveTitle (some s) = s := by simp [resolveTitle, hs0]
  have hhas : hasSection (S.readCfg cf) s = true := by
    simp [hasSection, hsne, hsec]
  have hspec := load_config_env_spec S cf (some s) e hv (by rw [hrt]; exact hhas)
    (by rw [hrt]; exact hnd)
  have hwrites : ∀ k, k ∈ (S.readCfg cf).defaults.map Prod.fst →
      envGet (load_config S cf (some s) e).1 k =
        some (sectionValue (S.readCfg cf) s k) := by
    intro k hk
    have hmem : k ∈ sectionKeys (S.readCfg cf) s :=
      mem_sectionKeys_default (S.readCfg cf) s own hsne hsec k hk
    have := hspec.2.1 k (by rw [hrt]; exact hmem)
    rw [hrt] at this
    exact this
  refine ⟨hwrites, ?_⟩
  intro k v hko hkv
  have hk : k ∈ (S.readCfg cf).defaults.map Prod.fst :=
    mem_of_alookup_some _ k v hkv
  rw [hwrites k hk, sectionValue_default (S.readCfg cf) s own k v hsne hsec hko hkv]

/-- Witness for C10: loading the `S3` section applies the DEFAULT secret
as well. -/
theorem default_section_inherited_witness :
    ownSection (sysC10.readCfg "/cfg.ini") "S3" = some [("REGION", "us-east-1")] ∧
    alookup (sysC10.readCfg "/cfg.ini").defaults "SECRET" = some "s3cr3t" ∧
    envGet (load_config sysC10 "/cfg.ini" (some "S3") []).1 "SECRET" = some "s3cr3t" := by
  have hv : secOk sysC10.fs (some "/cfg.ini") = true := by decide
  have hsec : ownSection (sysC10.readCfg "/cfg.ini") "S3" =
      some [("REGION", "us-east-1")] := by decide
  have hnd : (sectionKeys (sysC10.readCfg "/cfg.ini") "S3").Nodup := by decide
  have h := default_section_inherited sysC10 "/cfg.ini" "S3"
    [("REGION", "us-east-1")] [] hv (by decide) (by decide) hsec hnd
  exact ⟨hsec, by decide, h.2 "SECRET" "s3cr3t" (by decide) (by decide)⟩

/-- The trace of `load_config` has no S3 calls. -/
theorem s3Events_lcTrace (S : SysCtx) (cf : String) :
    s3Events (lcTrace S cf) = [] := s3Events_secTrace S.fs (some cf)

/-- S3 events of an empty trace. -/
theorem s3Events_nil : s3Events [] = [] := rfl

/-- A leading S3 call heads the S3 events. -/
theorem s3Events_cons_s3 (f b k : String) (tr : List SysEvent) :
    s3Events (SysEvent.s3Upload f b k :: tr) = (f, b, k) :: s3Events tr := by
  simp [s3Events]

/-- A successful single upload: after loading the `S3` secrets, exactly
one upload of the file to the fixed bucket under the target path joined
with its basename. -/
theorem upload_ok (S : SysCtx) (f sp3v : String) (e : OsEnv)
    (hcfg : secOk S.fs (some secret_file_path) = true)
    (hsec : hasSection (S.readCfg secret_file_path) "S3" = true)
    (hf : (S.fs f).isSome = true)
    (hs3 : S.s3 f bucket_name (osJoin sp3v (osBasename f)) = none) :
    upload_file_to_s3 S f (some sp3v) e =
      (lcEnv S secret_file_path (some "S3") e,
       lcTrace S secret_file_path ++
         [SysEvent.s3Upload f bucket_name (osJoin sp3v (osBasename f))],
       Except.ok ()) := by
  unfold upload_file_to_s3
  simp only [bind_apply, load_config_apply]
  have hlc : lcResult S secret_file_path (some "S3") = Except.ok () := by
    unfold lcResult
    simp [hcfg, resolveTitle, hsec]
  simp [hlc, hf, hs3]

/-- An upload whose source file is missing: the secrets are still loaded,
no upload call happens, and the invalid-file exception is raised. -/
theorem upload_invalid (S : SysCtx) (f sp3v : String) (e : OsEnv)
    (hcfg : secOk S.fs (some secret_file_path) = true)
    (hsec : hasSection (S.readCfg secret_file_path) "S3" = true)
    (hf : S.fs f = none) :
    upload_file_to_s3 S f (some sp3v) e =
      (lcEnv S secret_file_path (some "S3") e, lcTrace S secret_file_path,
       Except.error (PyError.uploadInvalidFile f)) := by
  unfold upload_file_to_s3
  simp only [bind_apply, load_config_apply]
  have hlc : lcResult S secret_file_path (some "S3") = Except.ok () := by
    unfold lcResult
    simp [hcfg, resolveTitle, hsec]
  simp [hlc, hf]

/-- A run of uploads that all succeed: one S3 call per file, in order. -/
theorem mFor_upload_ok (S : SysCtx) (sp3v : String) (files : List String)
    (hcfg : secOk S.fs (some secret_file_path) = true)
    (hsec : hasSection (S.readCfg secret_file_path) "S3" = true)
    (hok : ∀ f ∈ files, (S.fs f).isSome = true ∧
      S.s3 f bucket_name (osJoin sp3v (osBasename f)) = none) :
    ∀ e, (mFor files (fun lp => upload_file_to_s3 S lp (some sp3v)) e).2.2 =
        Except.ok () ∧
      s3Events (mFor files (fun lp => upload_file_to_s3 S lp (some sp3v)) e).2.1 =
        files.map (fun f => (f, bucket_name, osJoin sp3v (osBasename f))) := by
  induction files with
  | nil => intro e; exact ⟨rfl, rfl⟩
  | cons f rest ih =>
      intro e
      have hf := hok f (List.mem_cons_self f rest)
      have hih := ih (fun g hg => hok g (List.mem_cons_of_mem f hg))
        (lcEnv S secret_file_path (some "S3") e)
      simp only [mFor, bind_apply]
      rw [upload_ok S f sp3v e hcfg hsec hf.1 hf.2]
      refine ⟨by simpa using hih.1, ?_⟩
      have h2 := hih.2
      simp only [s3Events_append, s3Events_lcTrace, s3Events_cons_s3, s3Events_nil]
      simp [h2]

/-- A run of uploads where one file is missing at upload time: the
uploads before it happen, the failing one raises the invalid-file
exception, and every later match is skipped. -/
theorem mFor_upload_abort (S : SysCtx) (sp3v : String)
    (good : List String) (bad : String) (rest : List String)
    (hcfg : secOk S.fs (some secret_file_path) = true)
    (hsec : hasSection (S.readCfg secret_file_path) "S3" = true)
    (hok : ∀ f ∈ good, (S.fs f).isSome = true ∧
      S.s3 f bucket_name (osJoin sp3v (osBasename f)) = none)
    (hbad : S.fs bad = none) :
    ∀ e, (mFor (good ++ bad :: rest)
        (fun lp => upload_file_to_s3 S lp (some sp3v)) e).2.2 =
        Except.error (PyError.uploadInvalidFile bad) ∧
      s3Events (mFor (good ++ bad :: rest)
          (fun lp => upload_file_to_s3 S lp (some sp3v)) e).2.1 =
        good.map (fun f => (f, bucket_name, osJoin sp3v (osBasename f))) := by
  induction good with
  | nil =>
      intro e
      simp only [List.nil_append, mFor, bind_apply]
      rw [upload_invalid S bad sp3v e hcfg hsec hbad]
      simp [s3Events_lcTrace]
  | cons f gs ih =>
      intro e
      have hf := hok f (List.mem_cons_self f gs)
      have hih := ih (fun g hg => hok g (List.mem_cons_of_mem f hg))
        (lcEnv S secret_file_path (some "S3") e)
      simp only [List.cons_append, mFor, bind_apply]
      rw [upload_ok S f sp3v e hcfg hsec hf.1 hf.2]
      refine ⟨by simpa using hih.1, ?_⟩
      have h2 := hih.2
      simp only [s3Events_append, s3Events_lcTrace, s3Events_cons_s3, s3Events_nil]
      simp [h2]

/-- C8: for an S3_UPLOAD job with ARTIFACTS_DIR, S3_TARGET_PATH and
FILE_NAME parameters, the dispatcher performs exactly one upload per file
the glob matches under the joined pattern, each with key S3_TARGET_PATH
joined with the file's basename, all to the fixed bucket; and a single
failed upload (here: the file vanished before upload) aborts every
remaining match — partial failure is not isolated per file. -/
theorem s3_upload_job_spec (S : SysCtx) (c : MacCtx) (jp e : OsEnv)
    (ad fn sp3v : String)
    (had : alookup jp "ARTIFACTS_DIR" = some ad)
    (hfn : alookup jp "FILE_NAME" = some fn)
    (hsp : alookup jp "S3_TARGET_PATH" = some sp3v)
    (hcfg : secOk S.fs (some secret_file_path) = true)
    (hsec : hasSection (S.readCfg secret_file_path) "S3" = true) :
    ((∀ f ∈ S.globFn (osJoin ad fn), (S.fs f).isSome = true ∧
        S.s3 f bucket_name (osJoin sp3v (osBasename f)) = none) →
      (do_the_job S c (some "S3_UPLOAD") jp e).2.2 = Except.ok () ∧
      s3Events (do_the_job S c (some "S3_UPLOAD") jp e).2.1 =
        (S.globFn (osJoin ad fn)).map
          (fun f => (f, bucket_name, osJoin sp3v (osBasename f)))) ∧
    (∀ good bad rest, S.globFn (osJoin ad fn) = good ++ bad :: rest →
      (∀ f ∈ good, (S.fs f).isSome = true ∧
        S.s3 f bucket_name (osJoin sp3v (osBasename f)) = none) →
      S.fs bad = none →
      (do_the_job S c (some "S3_UPLOAD") jp e).2.2 =
        Except.error (PyError.uploadInvalidFile bad) ∧
      s3Events (do_the_job S c (some "S3_UPLOAD") jp e).2.1 =
        good.map (fun f => (f, bucket_name, osJoin sp3v (osBasename f)))) := by
  have hstep : do_the_job S c (some "S3_UPLOAD") jp e =
      mFor (S.globFn (osJoin ad fn))
        (fun lp => upload_file_to_s3 S lp (alookup jp "S3_TARGET_PATH")) e := by
    unfold do_the_job
    simp [had, hfn]
  constructor
  · intro hok
    rw [hstep]
    simp only [hsp]
    exact ⟨(mFor_upload_ok S sp3v _ hcfg hsec hok e).1,
      (mFor_upload_ok S sp3v _ hcfg hsec hok e).2⟩
  · intro good bad rest hglob hok hbad
    rw [hstep]
    simp only [hsp, hglob]
    exact ⟨(mFor_upload_abort S sp3v good bad rest hcfg hsec hok hbad e).1,
      (mFor_upload_abort S sp3v good bad rest hcfg hsec hok hbad e).2⟩

/-- Witness for C8: the spec's scenario-1 job parameters with two matching
zip files give two uploads keyed `builds/42/<basename>`; with the second
of three matches missing at upload time, only the first upload happens and
the third is never attempted. -/
theorem s3_upload_job_spec_witness :
    (do_the_job sysC8a macW (some "S3_UPLOAD") jpUpload []).2.2 = Except.ok () ∧
    s3Events (do_the_job sysC8a macW (some "S3_UPLOAD") jpUpload []).2.1 =
      [("/tmp/art/a.zip", bucket_name, "builds/42/a.zip"),
       ("/tmp/art/b.zip", bucket_name, "builds/42/b.zip")] ∧
    (do_the_job sysC8b macW (some "S3_UPLOAD") jpUpload []).2.2 =
        Except.error (PyError.uploadInvalidFile "/tmp/art/b.zip") ∧
    s3Events (do_the_job sysC8b macW (some "S3_UPLOAD") jpUpload []).2.1 =
      [("/tmp/art/a.zip", bucket_name, "builds/42/a.zip")] := by
  have h8a := (s3_upload_job_spec sysC8a macW jpUpload [] "/tmp/art" "*.zip"
    "builds/42" (by decide) (by decide) (by decide) (by decide) (by decide)).1
    (by decide)
  have h8b := (s3_upload_job_spec sysC8b macW jpUpload [] "/tmp/art" "*.zip"
    "builds/42" (by decide) (by decide) (by decide) (by decide) (by decide)).2
    ["/tmp/art/a.zip"] "/tmp/art/b.zip" ["/tmp/art/c.zip"]
    (by decide) (by decide) (by decide)
  exact ⟨h8a.1, h8a.2.trans (by decide), h8b.1, h8b.2.trans (by decide)⟩

/-- C9: a missing (`None`) or empty job name fails immediately with the
undefined-job-name error, and any name outside the closed enumeration
(MAC_CODE_SIGN, S3_UPLOAD) fails immediately with the unknown-job error;
in all three cases the event trace is empty (no validation, config load,
script execution or upload happens) and the ambient environment is
untouched. -/
theorem job_name_errors (S : SysCtx) (c : MacCtx) (jp e : OsEnv) (s : String) :
    do_the_job S c none jp e = (e, [], Except.error PyError.undefinedJobName) ∧
    do_the_job S c (some "") jp e = (e, [], Except.error PyError.undefinedJobName) ∧
    (s ≠ "" → s ≠ "MAC_CODE_SIGN" → s ≠ "S3_UPLOAD" →
      do_the_job S c (some s) jp e = (e, [], Except.error (PyError.unknownJob s))) := by
  refine ⟨rfl, rfl, ?_⟩
  intro h0 h1 h2
  unfold do_the_job
  simp [h0, h1, h2, raiseErr]

/-- Witness for C9 at the job name "NOPE". -/
theorem job_name_errors_witness :
    ("NOPE" : String) ≠ "" ∧ ("NOPE" : String) ≠ "MAC_CODE_SIGN" ∧
    ("NOPE" : String) ≠ "S3_UPLOAD" ∧
    do_the_job sysInert macW (some "NOPE") [] [] =
      ([], [], Except.error (PyError.unknownJob "NOPE")) := by
  exact ⟨by decide, by decide, by decide,
    (job_name_errors sysInert macW [] [] "NOPE").2.2 (by decide) (by decide) (by decide)⟩
